import Mathlib

/-!
# Verification of the serfig layered-configuration merge engine

Shallow embedding of `src/value.rs` and `src/builder.rs`.

The generic value representation (`serde_bridge::Value`) is embedded as a
mutual inductive family: `Value` together with `ValueSeq` (for `Vec<Value>`
payloads), `VEntries` (for `IndexMap<Value, Value>`, the `Map` payload) and
`FEntries` (for `IndexMap<&str, Value>`, the `Struct`/`StructVariant` field
payload).  `IndexMap` is represented by its entry list in insertion order.
Rust machine integers are embedded as `Int`/`Nat` (the merge engine only ever
compares them with `0`, so no overflow arithmetic is involved); `f32`/`f64`
payloads are embedded as `Rat` (the engine only compares them with `0.0`).
-/

mutual

inductive Value where
  | Bool (b : Bool)
  | I8 (v : Int)
  | I16 (v : Int)
  | I32 (v : Int)
  | I64 (v : Int)
  | I128 (v : Int)
  | U8 (v : Nat)
  | U16 (v : Nat)
  | U32 (v : Nat)
  | U64 (v : Nat)
  | U128 (v : Nat)
  | F32 (v : Rat)
  | F64 (v : Rat)
  | Char (c : Char)
  | Str (s : String)
  | Bytes (b : List Nat)
  | None
  | Some (v : Value)
  | Unit
  | UnitStruct (name : String)
  | UnitVariant (name : String) (variant_index : Nat) (variant : String)
  | NewtypeStruct (name : String) (v : Value)
  | NewtypeVariant (name : String) (variant_index : Nat) (variant : String) (value : Value)
  | Seq (items : ValueSeq)
  | Tuple (items : ValueSeq)
  | TupleStruct (name : String) (items : ValueSeq)
  | TupleVariant (name : String) (variant_index : Nat) (variant : String) (fields : ValueSeq)
  | Map (entries : VEntries)
  | Struct (name : String) (fields : FEntries)
  | StructVariant (name : String) (variant_index : Nat) (variant : String) (fields : FEntries)
deriving DecidableEq

inductive ValueSeq where
  | nil
  | cons (v : Value) (rest : ValueSeq)
deriving DecidableEq

inductive VEntries where
  | nil
  | cons (k : Value) (v : Value) (rest : VEntries)
deriving DecidableEq

inductive FEntries where
  | nil
  | cons (k : String) (v : Value) (rest : FEntries)
deriving DecidableEq

end

/-- Entry list of a `Map`-shaped value (and `.nil` on any other shape). -/
def mapEntries : Value → VEntries
  | .Map e => e
  | _ => .nil

/-- `VEntries` as a plain Lean list of key/value pairs. -/
def VEntries.toList : VEntries → List (Value × Value)
  | .nil => []
  | .cons k v rest => (k, v) :: rest.toList

/-- The keys of a `VEntries` entry list, in order. -/
def VEntries.keys (l : VEntries) : List Value :=
  l.toList.map Prod.fst

/-- `IndexMap::get`: the value of the first entry whose key equals `key`. -/
def vGet : VEntries → Value → Option Value
  | .nil, _ => Option.none
  | .cons k v rest, key => if k = key then Option.some v else vGet rest key

/-- `IndexMap::insert` on a map that does not contain the key: append at the
end (this is the only way the merge loops use `insert`, always right after
`remove` has taken the key out). -/
def vJoin : VEntries → Value → Value → VEntries
  | .nil, k, v => .cons k v .nil
  | .cons k' v' rest, k, v => .cons k' v' (vJoin rest k v)

/-- Last entry of the list, if any. -/
def VEntries.getLast? : VEntries → Option (Value × Value)
  | .nil => Option.none
  | .cons k v rest =>
    match rest.getLast? with
    | Option.none => Option.some (k, v)
    | Option.some p => Option.some p

/-- The list without its last entry. -/
def VEntries.dropLast : VEntries → VEntries
  | .nil => .nil
  | .cons _ _ .nil => .nil
  | .cons k v rest => .cons k v rest.dropLast

/-- Move the last entry of the list to the front (identity on `.nil`).
This is the hole left at position `i` being filled by the final element,
as `IndexMap::swap_remove` does when the removed entry is at the front of
the remaining suffix. -/
def vMoveLastFront (l : VEntries) : VEntries :=
  match l.getLast? with
  | Option.none => .nil
  | Option.some (k, v) => .cons k v l.dropLast

/-- `IndexMap::remove`, which is `swap_remove`: locate the first entry whose
key equals `key`, return its value, and fill its slot with the last entry of
the map (dropping the last slot). -/
def vSwapRemove : VEntries → Value → Option (Value × VEntries)
  | .nil, _ => Option.none
  | .cons k' v rest, key =>
    if k' = key then
      Option.some (v, vMoveLastFront rest)
    else
      match vSwapRemove rest key with
      | Option.none => Option.none
      | Option.some (w, rest') => Option.some (w, .cons k' v rest')

/-- `FEntries` as a plain Lean list of key/value pairs. -/
def FEntries.toList : FEntries → List (String × Value)
  | .nil => []
  | .cons k v rest => (k, v) :: rest.toList

/-- `IndexMap::get` at string keys. -/
def fGet : FEntries → String → Option Value
  | .nil, _ => Option.none
  | .cons k v rest, key => if k = key then Option.some v else fGet rest key

/-- `IndexMap::insert` of an absent string key: append at the end. -/
def fJoin : FEntries → String → Value → FEntries
  | .nil, k, v => .cons k v .nil
  | .cons k' v' rest, k, v => .cons k' v' (fJoin rest k v)

/-- Last entry of a string-keyed entry list, if any. -/
def FEntries.getLast? : FEntries → Option (String × Value)
  | .nil => Option.none
  | .cons k v rest =>
    match rest.getLast? with
    | Option.none => Option.some (k, v)
    | Option.some p => Option.some p

/-- The string-keyed entry list without its last entry. -/
def FEntries.dropLast : FEntries → FEntries
  | .nil => .nil
  | .cons _ _ .nil => .nil
  | .cons k v rest => .cons k v rest.dropLast

/-- Move the last entry to the front (string-keyed version). -/
def fMoveLastFront (l : FEntries) : FEntries :=
  match l.getLast? with
  | Option.none => .nil
  | Option.some (k, v) => .cons k v l.dropLast

/-- `IndexMap::remove` (= `swap_remove`) at string keys. -/
def fSwapRemove : FEntries → String → Option (Value × FEntries)
  | .nil, _ => Option.none
  | .cons k' v rest, key =>
    if k' = key then
      Option.some (v, fMoveLastFront rest)
    else
      match fSwapRemove rest key with
      | Option.none => Option.none
      | Option.some (w, rest') => Option.some (w, .cons k' v rest')

/-- `is_default` from `src/value.rs` lines 55-89: is this value the zero
value of its shape?  Enum unit variants deliberately answer `false`. -/
def is_default : Value → Bool
  | .Bool v => !v
  | .I8 v => v == 0
  | .I16 v => v == 0
  | .I32 v => v == 0
  | .I64 v => v == 0
  | .I128 v => v == 0
  | .U8 v => v == 0
  | .U16 v => v == 0
  | .U32 v => v == 0
  | .U64 v => v == 0
  | .U128 v => v == 0
  | .F32 v => v == 0
  | .F64 v => v == 0
  | .Char c => c == Char.ofNat 0
  | .Str s => s.isEmpty
  | .Bytes b => b.isEmpty
  | .None => true
  | .Some v => is_default v
  | .Unit => true
  | .UnitStruct _ => true
  | .UnitVariant _ _ _ => false
  | .NewtypeStruct _ v => is_default v
  | .NewtypeVariant _ _ _ v => is_default v
  | .Seq .nil => true
  | .Seq _ => false
  | .Tuple .nil => true
  | .Tuple _ => false
  | .TupleStruct _ .nil => true
  | .TupleStruct _ _ => false
  | .TupleVariant _ _ _ .nil => true
  | .TupleVariant _ _ _ _ => false
  | .Map .nil => true
  | .Map _ => false
  | .Struct _ .nil => true
  | .Struct _ _ => false
  | .StructVariant _ _ _ .nil => true
  | .StructVariant _ _ _ _ => false

mutual

/-- `merge` from `src/value.rs` lines 25-53: two-way, right-biased merge.
Match guards (`if ln == rn`, etc.) become `if` inside the branch whose
negative side rebuilds and returns the right operand, exactly as the Rust
match falls through to `(_, r) => r`. -/
def merge : Value → Value → Value
  | .Map l, .Map r => .Map (merge_vmap l r)
  | .Struct ln lv, .Struct rn rv =>
    if ln = rn then .Struct ln (merge_fmap lv rv) else .Struct rn rv
  | .StructVariant ln lvi lvar lf, .StructVariant rn rvi rvar rf =>
    if ln = rn ∧ lvi = rvi ∧ lvar = rvar then
      .StructVariant ln lvi lvar (merge_fmap lf rf)
    else .StructVariant rn rvi rvar rf
  | _, r => r

/-- The loop of `merge_map` (`src/value.rs` lines 5-23) at key type
`K = Value`: fold over the right map's entries, combining with any equal-key
entry removed from the left map. -/
def merge_vmap : VEntries → VEntries → VEntries
  | l, .nil => l
  | l, .cons k rv rest =>
    match vSwapRemove l k with
    | Option.some (lv, l') =>
      merge_vmap
        (vJoin l' k
          (if is_default lv then rv else if is_default rv then lv else merge lv rv))
        rest
    | Option.none => merge_vmap (vJoin l k rv) rest

/-- The loop of `merge_map` at key type `K = &str` (struct fields). -/
def merge_fmap : FEntries → FEntries → FEntries
  | l, .nil => l
  | l, .cons k rv rest =>
    match fSwapRemove l k with
    | Option.some (lv, l') =>
      merge_fmap
        (fJoin l' k
          (if is_default lv then rv else if is_default rv then lv else merge lv rv))
        rest
    | Option.none => merge_fmap (fJoin l k rv) rest

end

/-- The loop of `merge_map_defaultable` (`src/value.rs` lines 91-116) at key
type `K = Value`: like `merge_vmap`, but the decision compares both sides
with the default value of the key by structural equality, and a key the
default map lacks gets `Value.Unit` substituted as its default
(`default.get(&k).unwrap_or(&Value::Unit)`). -/
def merge_vmap_defaultable (dflt : VEntries) : VEntries → VEntries → VEntries
  | l, .nil => l
  | l, .cons k rv rest =>
    let dv := (vGet dflt k).getD Value.Unit
    match vSwapRemove l k with
    | Option.some (lv, l') =>
      merge_vmap_defaultable dflt
        (vJoin l' k (if lv = dv then rv else if rv = dv then lv else merge lv rv))
        rest
    | Option.none => merge_vmap_defaultable dflt (vJoin l k rv) rest

/-- The loop of `merge_map_defaultable` at key type `K = &str`. -/
def merge_fmap_defaultable (dflt : FEntries) : FEntries → FEntries → FEntries
  | l, .nil => l
  | l, .cons k rv rest =>
    let dv := (fGet dflt k).getD Value.Unit
    match fSwapRemove l k with
    | Option.some (lv, l') =>
      merge_fmap_defaultable dflt
        (fJoin l' k (if lv = dv then rv else if rv = dv then lv else merge lv rv))
        rest
    | Option.none => merge_fmap_defaultable dflt (fJoin l k rv) rest

/-- `merge_defaultable` from `src/value.rs` lines 118-156: three-way,
default-aware merge.  All three match guards compare the default operand's
identity too; any failure falls through to `(_, _, r) => r`. -/
def merge_defaultable : Value → Value → Value → Value
  | .Map d, .Map l, .Map r => .Map (merge_vmap_defaultable d l r)
  | .Struct dn dv, .Struct ln lv, .Struct rn rv =>
    if ln = rn ∧ ln = dn then .Struct ln (merge_fmap_defaultable dv lv rv)
    else .Struct rn rv
  | .StructVariant dn dvi dvar df, .StructVariant ln lvi lvar lf,
      .StructVariant rn rvi rvar rf =>
    if ln = rn ∧ lvi = rvi ∧ lvar = rvar ∧ ln = dn ∧ lvi = dvi ∧ lvar = dvar then
      .StructVariant ln lvi lvar (merge_fmap_defaultable df lf rf)
    else .StructVariant rn rvi rvar rf
  | _, _, r => r

mutual

/-- Modelled from the spec: `merge_with_default(defaultLayer, candidate)` is
called by `Builder::build_with` (`src/builder.rs` line 136) but its body is
absent from the sources; §4.3 of the spec describes it: walk the candidate's
keys, and where the default layer has a same-named compatible substructure,
recurse; otherwise take the candidate's value as-is. -/
def merge_with_default : Value → Value → Value
  | .Map dm, .Map cm => .Map (merge_with_default_ventries dm cm)
  | .Struct dn df, .Struct cn cf =>
    if dn = cn then .Struct cn (merge_with_default_fentries df cf) else .Struct cn cf
  | .StructVariant dn dvi dvar df, .StructVariant cn cvi cvar cf =>
    if dn = cn ∧ dvi = cvi ∧ dvar = cvar then
      .StructVariant cn cvi cvar (merge_with_default_fentries df cf)
    else .StructVariant cn cvi cvar cf
  | _, c => c

/-- Modelled from the spec: the per-entry walk of `merge_with_default` over a
candidate map; a key the default layer also binds recurses, any other key is
taken as-is. -/
def merge_with_default_ventries (dm : VEntries) : VEntries → VEntries
  | .nil => .nil
  | .cons k v rest =>
    match vGet dm k with
    | Option.some dv => .cons k (merge_with_default dv v) (merge_with_default_ventries dm rest)
    | Option.none => .cons k v (merge_with_default_ventries dm rest)

/-- Modelled from the spec: the per-entry walk of `merge_with_default` over
candidate struct fields. -/
def merge_with_default_fentries (dm : FEntries) : FEntries → FEntries
  | .nil => .nil
  | .cons k v rest =>
    match fGet dm k with
    | Option.some dv => .cons k (merge_with_default dv v) (merge_with_default_fentries dm rest)
    | Option.none => .cons k v (merge_with_default_fentries dm rest)

end

/-- How `Builder::build_with` can fail: a collector error propagated by the
`?` on `c.collect()?` (line 136), or the terminal
`anyhow!("no valid value to deserialize")` (line 153). -/
inductive BuildError where
  | collectFailed
  | noValidValue
deriving DecidableEq

/-- The loop of `Builder::build_with` (`src/builder.rs` lines 129-154).
A collector is embedded as its `collect()` outcome (`Except Unit Value`);
the typed deserialization step (`deserialize_value`, serde territory) is a
parameter `deserialize : Value → Option V`.  State threaded through the
loop: the running merged `value` and the last successful deserialization
`result`. -/
def build_loop {V : Type} (deserialize : Value → Option V) (dflt : Value) :
    List (Except Unit Value) → Value → Option V → Except BuildError V
  | [], _, result =>
    match result with
    | Option.some v => Except.ok v
    | Option.none => Except.error BuildError.noValidValue
  | c :: cs, value, result =>
    match c with
    | Except.error _ => Except.error BuildError.collectFailed
    | Except.ok raw =>
      let collected_value := merge_with_default dflt raw
      let value' := merge_defaultable dflt value collected_value
      let result' :=
        match deserialize value' with
        | Option.some v => Option.some v
        | Option.none => result
      build_loop deserialize dflt cs value' result'

/-- `Builder::build_with`: the default instance is embedded as the `Value`
snapshot `into_value(default)` produces; `value` starts as a clone of the
default and `result` as `None`. -/
def build_with {V : Type} (deserialize : Value → Option V)
    (collectors : List (Except Unit Value)) (dflt : Value) : Except BuildError V :=
  build_loop deserialize dflt collectors dflt Option.none

/-- The successive accumulated values of a build whose collectors all
succeed, one per collector: each step three-way-merges the normalized
collected value into the running value. -/
def step_values (dflt : Value) : Value → List Value → List Value
  | _, [] => []
  | value, raw :: rest =>
    let value' := merge_defaultable dflt value (merge_with_default dflt raw)
    value' :: step_values dflt value' rest

/-- The container shapes the two-way merge can recurse into: `Map`,
`Struct`, `StructVariant`.  Everything else acts as a scalar for merging. -/
def isMergeContainer : Value → Bool
  | .Map _ => true
  | .Struct _ _ => true
  | .StructVariant _ _ _ _ => true
  | _ => false

/-- Shape category of a value for merge purposes: the three mergeable
container shapes are distinguished, every other shape counts as scalar. -/
def shapeCategory : Value → Nat
  | .Map _ => 1
  | .Struct _ _ => 2
  | .StructVariant _ _ _ _ => 3
  | _ => 0

/-- Both sides struct-shaped but with different declared names. -/
def structNamesDiffer : Value → Value → Bool
  | .Struct ln _, .Struct rn _ => decide (ln ≠ rn)
  | _, _ => false

/-- Both sides struct-variant-shaped but with enum name, variant index, or
variant name differing. -/
def svIdentityDiffers : Value → Value → Bool
  | .StructVariant ln li lv _, .StructVariant rn ri rv _ =>
    decide (¬ (ln = rn ∧ li = ri ∧ lv = rv))
  | _, _ => false

/-- The merge-incompatibility hypothesis of the right-bias property: two
non-container scalars, mismatched shape categories, struct-shaped values
with different names, or struct-variant values with differing identity. -/
def mergeIncompatible (l r : Value) : Prop :=
  (isMergeContainer l = false ∧ isMergeContainer r = false)
  ∨ shapeCategory l ≠ shapeCategory r
  ∨ structNamesDiffer l r = true
  ∨ svIdentityDiffers l r = true

/-- Two values the two-way `merge` recurses into field by field: both maps,
both structs with equal declared names, or both struct variants with equal
enum name, variant index and variant name. -/
def mutuallyMergeable : Value → Value → Bool
  | .Map _, .Map _ => true
  | .Struct ln _, .Struct rn _ => decide (ln = rn)
  | .StructVariant ln li lv _, .StructVariant rn ri rv _ =>
    decide (ln = rn ∧ li = ri ∧ lv = rv)
  | _, _ => false

/-- The extra identity check `merge_defaultable` imposes on its default
operand, relative to the accumulated operand: same container shape, and for
named shapes the same declared name / variant identity (the `ln == dn`,
`lvi == dvi`, `lv == dv` parts of the match guards). -/
def compatWithDefault : Value → Value → Bool
  | .Map _, .Map _ => true
  | .Struct dn _, .Struct ln _ => decide (ln = dn)
  | .StructVariant dn di dv _, .StructVariant ln li lv _ =>
    decide (ln = dn ∧ li = di ∧ lv = dv)
  | _, _ => false

/-- C6: with default `{a: "", b: "X"}`, accumulated `{a: "set", b: "X"}` and
candidate `{a: "", b: "Y"}`, the three-way default-aware merge returns
`{a: "set", b: "Y"}`: the candidate's default-equal field `a` does not
overwrite the previously set value, while its changed field `b` does. -/
theorem C6_default_aware_precedence :
    merge_defaultable
      (.Map (.cons (.Str "a") (.Str "") (.cons (.Str "b") (.Str "X") .nil)))
      (.Map (.cons (.Str "a") (.Str "set") (.cons (.Str "b") (.Str "X") .nil)))
      (.Map (.cons (.Str "a") (.Str "") (.cons (.Str "b") (.Str "Y") .nil))) =
    .Map (.cons (.Str "a") (.Str "set") (.cons (.Str "b") (.Str "Y") .nil)) := by
  decide

/-- C1 (counter-evidence): `c.collect()?` in `Builder::build_with` aborts the
whole build at the first collector failure.  With the identity deserializer,
collectors `[ok "a", error, ok "b"]` make the build return the collector
error, although the same build without the failing middle source succeeds —
contradicting the recovery the claim (and `build_with`'s own doc comment)
describes. -/
theorem C1_collect_failure_aborts_build :
    build_with (fun v => Option.some v)
        [Except.ok (.Str "a"), Except.error (), Except.ok (.Str "b")] .Unit =
      Except.error BuildError.collectFailed
    ∧ build_with (fun v => Option.some v)
        [Except.ok (.Str "a"), Except.ok (.Str "b")] .Unit =
      Except.ok (.Str "b") :=
  ⟨rfl, rfl⟩

/-- C2 (counterexample): a candidate key the default map lacks is not a
fatal internal-consistency error: `merge_defaultable` completes normally,
substituting `Value.Unit` as the missing default, so the candidate's `Unit`
counts as "still default" and the accumulated `"set"` is kept. -/
theorem C2_counterexample_missing_default_recovered :
    merge_defaultable (.Map .nil)
      (.Map (.cons (.Str "a") (.Str "set") .nil))
      (.Map (.cons (.Str "a") .Unit .nil)) =
    .Map (.cons (.Str "a") (.Str "set") .nil) := by
  decide

/-- C4 (counterexample): the two-way merge is not unconditionally
right-biased on shared keys: when the right value is the default `""` and
the left value `"a"` is not, the left value is kept, so the right operand's
value does not win. -/
theorem C4_counterexample_right_does_not_always_win :
    merge (.Map (.cons (.Str "k") (.Str "a") .nil))
        (.Map (.cons (.Str "k") (.Str "") .nil)) =
      .Map (.cons (.Str "k") (.Str "a") .nil)
    ∧ (Value.Map (.cons (.Str "k") (.Str "a") .nil)) ≠
      .Map (.cons (.Str "k") (.Str "") .nil) := by
  exact ⟨by decide, by decide⟩

/-- C4 (amended): per-key rule of the two-way merge on a shared key: the
right value wins when the left value is default, the left value is kept
when only the right value is default, and otherwise the two are merged
recursively (right-biased at leaves). -/
theorem C4_amended_per_key_rule (k lv rv : Value) :
    merge (.Map (.cons k lv .nil)) (.Map (.cons k rv .nil)) =
      .Map (.cons k
        (if is_default lv then rv else if is_default rv then lv else merge lv rv)
        .nil) := by
  simp [merge, merge_vmap, vSwapRemove, vMoveLastFront, VEntries.getLast?,
    VEntries.dropLast, vJoin]

/-- C5 (counterexample): with default `d = {k: 1}` and accumulated `a = {}`
(whose keys are trivially a subset of `d`'s shape), `merge3(d, a, d)` is not
`a`: it adds the default entry to the empty accumulated map. -/
theorem C5_counterexample_adds_default_entries :
    merge_defaultable (.Map (.cons (.Str "k") (.I64 1) .nil)) (.Map .nil)
        (.Map (.cons (.Str "k") (.I64 1) .nil)) =
      .Map (.cons (.Str "k") (.I64 1) .nil)
    ∧ (Value.Map (.cons (.Str "k") (.I64 1) .nil)) ≠ .Map .nil := by
  exact ⟨by decide, by decide⟩

/-- Helper for C2: extending the default map with an explicit `Unit` binding
for a key it lacks does not change the per-key default the loop computes. -/
theorem getD_vGet_cons_unit (dm : VEntries) (k k' : Value)
    (h : vGet dm k = Option.none) :
    (vGet (.cons k .Unit dm) k').getD Value.Unit = (vGet dm k').getD Value.Unit := by
  by_cases hk : k = k'
  · subst hk; simp [vGet, h]
  · simp [vGet, hk]

/-- Helper for C2: the `merge_map_defaultable` loop behaves identically
whether the default map omits a key or binds it to `Value.Unit`. -/
theorem merge_vmap_defaultable_cons_unit (dm : VEntries) (k : Value)
    (h : vGet dm k = Option.none) :
    ∀ (rm lm : VEntries),
      merge_vmap_defaultable (.cons k .Unit dm) lm rm =
        merge_vmap_defaultable dm lm rm
  | .nil, _ => rfl
  | .cons k' rv rest, lm => by
    simp only [merge_vmap_defaultable, getD_vGet_cons_unit dm k k' h]
    rcases hsw : vSwapRemove lm k' with _ | ⟨lv, l'⟩
    · simp only [hsw]
      exact merge_vmap_defaultable_cons_unit dm k h rest _
    · simp only [hsw]
      exact merge_vmap_defaultable_cons_unit dm k h rest _

/-- C2 (amended): a candidate key structurally absent from the default
layer's map is handled recoverably: `Value.Unit` is substituted as that
key's default, so the merge is exactly what it would be had the default map
carried an explicit `Unit` binding for the key; no failure occurs. -/
theorem C2_amended_missing_default_is_unit (dm lm rm : VEntries) (k : Value)
    (h : vGet dm k = Option.none) :
    merge_defaultable (.Map (.cons k .Unit dm)) (.Map lm) (.Map rm) =
      merge_defaultable (.Map dm) (.Map lm) (.Map rm) := by
  simp only [merge_defaultable]
  rw [merge_vmap_defaultable_cons_unit dm k h rm lm]

/-- Witness for C2 (amended) at a concrete input. -/
theorem C2_amended_missing_default_is_unit_witness :
    vGet .nil (.Str "b") = Option.none
    ∧ merge_defaultable (.Map (.cons (.Str "b") .Unit .nil))
        (.Map (.cons (.Str "b") (.Str "set") .nil))
        (.Map (.cons (.Str "b") .Unit .nil)) =
      merge_defaultable (.Map .nil)
        (.Map (.cons (.Str "b") (.Str "set") .nil))
        (.Map (.cons (.Str "b") .Unit .nil)) :=
  ⟨rfl,
    C2_amended_missing_default_is_unit .nil
      (.cons (.Str "b") (.Str "set") .nil)
      (.cons (.Str "b") .Unit .nil) (.Str "b") rfl⟩

/-- C3 (counterexample): with default `{x: {a:"X", b:"Y"}}`, accumulated
`{x: {a:"A", b:"Y"}}` and candidate `{x: {a:"X", b:"B"}}`, the nested values
at `x` both differ from their default and are compatible maps, yet the
result at `x` is the two-way merge `{a:"X", b:"B"}` — not the recursive
three-way merge, which would keep the accumulated `a:"A"` because the
candidate's `a` equals its default. -/
theorem C3_counterexample_no_recursive_merge3 :
    merge_defaultable
        (.Map (.cons (.Str "x")
          (.Map (.cons (.Str "a") (.Str "X") (.cons (.Str "b") (.Str "Y") .nil))) .nil))
        (.Map (.cons (.Str "x")
          (.Map (.cons (.Str "a") (.Str "A") (.cons (.Str "b") (.Str "Y") .nil))) .nil))
        (.Map (.cons (.Str "x")
          (.Map (.cons (.Str "a") (.Str "X") (.cons (.Str "b") (.Str "B") .nil))) .nil)) =
      .Map (.cons (.Str "x")
        (.Map (.cons (.Str "a") (.Str "X") (.cons (.Str "b") (.Str "B") .nil))) .nil)
    ∧ merge_defaultable
        (.Map (.cons (.Str "a") (.Str "X") (.cons (.Str "b") (.Str "Y") .nil)))
        (.Map (.cons (.Str "a") (.Str "A") (.cons (.Str "b") (.Str "Y") .nil)))
        (.Map (.cons (.Str "a") (.Str "X") (.cons (.Str "b") (.Str "B") .nil))) =
      .Map (.cons (.Str "a") (.Str "A") (.cons (.Str "b") (.Str "B") .nil))
    ∧ (Value.Map (.cons (.Str "a") (.Str "X") (.cons (.Str "b") (.Str "B") .nil))) ≠
      .Map (.cons (.Str "a") (.Str "A") (.cons (.Str "b") (.Str "B") .nil)) := by
  exact ⟨by decide, by decide, by decide⟩

/-- C3 (amended): when the accumulated and candidate values of a key both
differ (by structural equality) from that key's default, the three-way merge
always combines them with the two-way `merge` — it never recurses with
`merge_defaultable`, even for compatible containers. -/
theorem C3_amended_two_way_fallback (dm : VEntries) (k lv rv dv : Value)
    (h : vGet dm k = Option.some dv) (hl : lv ≠ dv) (hr : rv ≠ dv) :
    merge_defaultable (.Map dm) (.Map (.cons k lv .nil)) (.Map (.cons k rv .nil)) =
      .Map (.cons k (merge lv rv) .nil) := by
  simp only [merge_defaultable, merge_vmap_defaultable, h]
  simp [vSwapRemove, vMoveLastFront, VEntries.getLast?, hl, hr, vJoin,
    merge_vmap_defaultable]

/-- Witness for C3 (amended) at a concrete input. -/
theorem C3_amended_two_way_fallback_witness :
    vGet (.cons (.Str "k") (.Str "d") .nil) (.Str "k") = Option.some (.Str "d")
    ∧ (Value.Str "A") ≠ .Str "d"
    ∧ (Value.Str "B") ≠ .Str "d"
    ∧ merge_defaultable (.Map (.cons (.Str "k") (.Str "d") .nil))
        (.Map (.cons (.Str "k") (.Str "A") .nil))
        (.Map (.cons (.Str "k") (.Str "B") .nil)) =
      .Map (.cons (.Str "k") (merge (.Str "A") (.Str "B")) .nil) :=
  ⟨by decide, by decide, by decide,
    C3_amended_two_way_fallback (.cons (.Str "k") (.Str "d") .nil)
      (.Str "k") (.Str "A") (.Str "B") (.Str "d") (by decide) (by decide) (by decide)⟩

/-- C7: `is_default` classifies values exactly per the stated rules —
booleans default iff false, integers and floats iff numerically zero,
characters iff the null character, strings and byte strings iff empty,
`none` default, `some(x)` default iff `x` is, unit and unit-structs always
default, sequences, tuples, maps and struct field-sets default iff empty,
and a unit-variant is always classified as non-default. -/
theorem C7_is_default_rules :
    (∀ b, is_default (.Bool b) = !b)
    ∧ (∀ v : Int, is_default (.I8 v) = decide (v = 0))
    ∧ (∀ v : Int, is_default (.I16 v) = decide (v = 0))
    ∧ (∀ v : Int, is_default (.I32 v) = decide (v = 0))
    ∧ (∀ v : Int, is_default (.I64 v) = decide (v = 0))
    ∧ (∀ v : Int, is_default (.I128 v) = decide (v = 0))
    ∧ (∀ v : Nat, is_default (.U8 v) = decide (v = 0))
    ∧ (∀ v : Nat, is_default (.U16 v) = decide (v = 0))
    ∧ (∀ v : Nat, is_default (.U32 v) = decide (v = 0))
    ∧ (∀ v : Nat, is_default (.U64 v) = decide (v = 0))
    ∧ (∀ v : Nat, is_default (.U128 v) = decide (v = 0))
    ∧ (∀ q : Rat, is_default (.F32 q) = decide (q = 0))
    ∧ (∀ q : Rat, is_default (.F64 q) = decide (q = 0))
    ∧ (∀ c : Char, is_default (.Char c) = decide (c = Char.ofNat 0))
    ∧ (∀ s : String, is_default (.Str s) = decide (s = ""))
    ∧ (∀ b : List Nat, is_default (.Bytes b) = decide (b = []))
    ∧ is_default .None = true
    ∧ (∀ v, is_default (.Some v) = is_default v)
    ∧ is_default .Unit = true
    ∧ (∀ n, is_default (.UnitStruct n) = true)
    ∧ (∀ n i s, is_default (.UnitVariant n i s) = false)
    ∧ (∀ items, is_default (.Seq items) = decide (items = .nil))
    ∧ (∀ items, is_default (.Tuple items) = decide (items = .nil))
    ∧ (∀ n items, is_default (.TupleStruct n items) = decide (items = .nil))
    ∧ (∀ n i s items, is_default (.TupleVariant n i s items) = decide (items = .nil))
    ∧ (∀ e, is_default (.Map e) = decide (e = .nil))
    ∧ (∀ n f, is_default (.Struct n f) = decide (f = .nil))
    ∧ (∀ n i s f, is_default (.StructVariant n i s f) = decide (f = .nil)) :=
  ⟨fun b => by cases b <;> rfl,
    fun v => by by_cases h : v = 0 <;> simp [is_default, h],
    fun v => by by_cases h : v = 0 <;> simp [is_default, h],
    fun v => by by_cases h : v = 0 <;> simp [is_default, h],
    fun v => by by_cases h : v = 0 <;> simp [is_default, h],
    fun v => by by_cases h : v = 0 <;> simp [is_default, h],
    fun v => by by_cases h : v = 0 <;> simp [is_default, h],
    fun v => by by_cases h : v = 0 <;> simp [is_default, h],
    fun v => by by_cases h : v = 0 <;> simp [is_default, h],
    fun v => by by_cases h : v = 0 <;> simp [is_default, h],
    fun v => by by_cases h : v = 0 <;> simp [is_default, h],
    fun q => by by_cases h : q = 0 <;> simp [is_default, h],
    fun q => by by_cases h : q = 0 <;> simp [is_default, h],
    fun c => by by_cases h : c = Char.ofNat 0 <;> simp [is_default, h],
    fun s => by
      by_cases h : s = ""
      · subst h; decide
      · have hne : s.isEmpty = false := by
          rw [← Bool.not_eq_true]
          exact fun hc => h ((String.isEmpty_iff s).mp hc)
        simp [is_default, h, hne],
    fun b => by by_cases h : b = [] <;> simp [is_default, h],
    rfl,
    fun v => rfl,
    rfl,
    fun n => rfl,
    fun n i s => rfl,
    fun items => by cases items <;> simp [is_default],
    fun items => by cases items <;> simp [is_default],
    fun n items => by cases items <;> simp [is_default],
    fun n i s items => by cases items <;> simp [is_default],
    fun e => by cases e <;> simp [is_default],
    fun n f => by cases f <;> simp [is_default],
    fun n i s f => by cases f <;> simp [is_default]⟩

/-- C8: whenever the two operands are merge-incompatible — two non-container
scalars, mismatched shape categories, structs with different declared names,
or struct variants with differing identity — the two-way merge returns the
right operand verbatim, never recursing field by field. -/
theorem C8_incompatible_right_replaces (l r : Value) (h : mergeIncompatible l r) :
    merge l r = r := by
  cases l <;> cases r <;>
    first
      | rfl
      | (simp_all [mergeIncompatible, isMergeContainer, shapeCategory,
           structNamesDiffer, svIdentityDiffers, merge]
         done)
      | (simp_all [mergeIncompatible, isMergeContainer, shapeCategory,
           structNamesDiffer, svIdentityDiffers, merge]
         rintro rfl rfl rfl
         simp_all)

/-- Witness for C8 at a concrete incompatible pair of scalars. -/
theorem C8_incompatible_right_replaces_witness :
    mergeIncompatible (.Str "a") (.I64 3) ∧ merge (.Str "a") (.I64 3) = .I64 3 :=
  ⟨Or.inl ⟨rfl, rfl⟩, C8_incompatible_right_replaces (.Str "a") (.I64 3) (Or.inl ⟨rfl, rfl⟩)⟩

/-- C10: the three-way merge demands compatibility of all three operands at
once: when the accumulated and candidate values are mutually mergeable but
the default operand's shape or declared identity does not match, the
candidate is returned verbatim and the accumulated value is discarded. -/
theorem C10_default_mismatch_discards_accumulated (d l r : Value)
    (h1 : mutuallyMergeable l r = true) (h2 : compatWithDefault d l = false) :
    merge_defaultable d l r = r := by
  cases l <;> cases r <;> simp_all [mutuallyMergeable] <;> cases d <;>
    first
      | rfl
      | simp_all [compatWithDefault, merge_defaultable]

/-- Witness for C10: a unit default with two mutually mergeable maps. -/
theorem C10_default_mismatch_discards_accumulated_witness :
    mutuallyMergeable (.Map (.cons (.Str "k") (.Str "a") .nil))
        (.Map (.cons (.Str "k") (.Str "b") .nil)) = true
    ∧ compatWithDefault .Unit (.Map (.cons (.Str "k") (.Str "a") .nil)) = false
    ∧ merge_defaultable .Unit (.Map (.cons (.Str "k") (.Str "a") .nil))
        (.Map (.cons (.Str "k") (.Str "b") .nil)) =
      .Map (.cons (.Str "k") (.Str "b") .nil) :=
  ⟨rfl, rfl,
    C10_default_mismatch_discards_accumulated .Unit
      (.Map (.cons (.Str "k") (.Str "a") .nil))
      (.Map (.cons (.Str "k") (.Str "b") .nil)) rfl rfl⟩

/-- Helper for C9: invariant of the `build_with` loop over collectors that
all collect successfully — the outcome is the last successful
deserialization among the step values, falling back to the carried
`result`, and failing only when both are absent. -/
theorem build_loop_last_success {V : Type} (deserialize : Value → Option V)
    (dflt : Value) :
    ∀ (raws : List Value) (value : Value) (result : Option V),
      build_loop deserialize dflt (raws.map Except.ok) value result =
        match ((step_values dflt value raws).filterMap deserialize).getLast? with
        | Option.some v => Except.ok v
        | Option.none =>
          match result with
          | Option.some v => Except.ok v
          | Option.none => Except.error BuildError.noValidValue
  | [], value, result => rfl
  | raw :: rest, value, result => by
    rw [List.map_cons]
    simp only [build_loop, step_values]
    rw [build_loop_last_success deserialize dflt rest _ _]
    rcases hd : deserialize (merge_defaultable dflt value (merge_with_default dflt raw)) with _ | v
    · simp [List.filterMap_cons, hd]
    · simp only [List.filterMap_cons, hd]
      rcases hl : ((step_values dflt
          (merge_defaultable dflt value (merge_with_default dflt raw)) rest).filterMap
            deserialize) with _ | ⟨x, xs⟩
      · simp [hl]
      · simp [hl, List.getLast?_cons]

/-- C9: for a build whose collectors all collect successfully, `build_with`
returns exactly the last successfully deserialized intermediate result, and
when no accumulation step ever deserialized successfully it fails with the
single terminal `noValidValue` error, returning no partial result. -/
theorem C9_last_successful_deserialization {V : Type} (deserialize : Value → Option V)
    (dflt : Value) (raws : List Value) :
    build_with deserialize (raws.map Except.ok) dflt =
      match ((step_values dflt dflt raws).filterMap deserialize).getLast? with
      | Option.some v => Except.ok v
      | Option.none => Except.error BuildError.noValidValue :=
  build_loop_last_success deserialize dflt raws dflt Option.none

/-- Helper for C5: appending an entry, seen on the underlying lists. -/
theorem vJoin_toList : ∀ (l : VEntries) (k v : Value),
    (vJoin l k v).toList = l.toList ++ [(k, v)]
  | .nil, _, _ => rfl
  | .cons k' v' rest, k, v => by
    simp [vJoin, VEntries.toList, vJoin_toList rest k v]

/-- Helper for C5: a nonempty entry list has a last entry. -/
theorem VEntries.getLast?_cons_isSome (k v : Value) (rest : VEntries) :
    (VEntries.cons k v rest).getLast?.isSome := by
  cases h : rest.getLast? <;> simp [VEntries.getLast?, h]

/-- Helper for C5: moving the last entry to the front permutes the list. -/
theorem vMoveLastFront_perm : ∀ (l : VEntries),
    (vMoveLastFront l).toList.Perm l.toList
  | .nil => List.Perm.refl _
  | .cons k v .nil => by
    simp [vMoveLastFront, VEntries.getLast?, VEntries.dropLast, VEntries.toList]
  | .cons k v (.cons k2 v2 rest2) => by
    have ih := vMoveLastFront_perm (.cons k2 v2 rest2)
    rcases hg : (VEntries.cons k2 v2 rest2).getLast? with _ | ⟨lk, lv⟩
    · have := VEntries.getLast?_cons_isSome k2 v2 rest2
      rw [hg] at this
      simp at this
    · have hg2 : (VEntries.cons k v (VEntries.cons k2 v2 rest2)).getLast? =
          Option.some (lk, lv) := by
        simp only [VEntries.getLast?] at hg ⊢
        rw [hg]
      have ih' : ((lk, lv) :: (VEntries.dropLast (.cons k2 v2 rest2)).toList).Perm
          ((k2, v2) :: rest2.toList) := by
        simpa [vMoveLastFront, hg, VEntries.toList] using ih
      have hunf : vMoveLastFront (.cons k v (.cons k2 v2 rest2)) =
          .cons lk lv (.cons k v (VEntries.dropLast (.cons k2 v2 rest2))) := by
        simp [vMoveLastFront, hg2, VEntries.dropLast]
      rw [hunf]
      show ((lk, lv) :: (k, v) :: (VEntries.dropLast (.cons k2 v2 rest2)).toList).Perm
        ((k, v) :: (k2, v2) :: rest2.toList)
      exact (List.Perm.swap (k, v) (lk, lv) _).trans (List.Perm.cons _ ih')

/-- Helper for C5: swap-removing a present key returns its (first) value and
a list that, together with the removed entry, permutes the original. -/
theorem vSwapRemove_mem : ∀ (l : VEntries) (k : Value),
    k ∈ VEntries.keys l →
    ∃ w l', vSwapRemove l k = Option.some (w, l')
      ∧ l.toList.Perm ((k, w) :: l'.toList)
  | .nil, k, h => by simp [VEntries.keys, VEntries.toList] at h
  | .cons k' v rest, k, h => by
    by_cases hk : k' = k
    · subst hk
      refine ⟨v, vMoveLastFront rest, by simp [vSwapRemove], ?_⟩
      exact List.Perm.cons _ (vMoveLastFront_perm rest).symm
    · have hmem : k ∈ VEntries.keys rest := by
        rcases List.mem_cons.mp (show k ∈ k' :: VEntries.keys rest from h) with h3 | h3
        · exact absurd h3.symm hk
        · exact h3
      obtain ⟨w, rest', heq, hperm⟩ := vSwapRemove_mem rest k hmem
      refine ⟨w, .cons k' v rest', by simp [vSwapRemove, hk, heq], ?_⟩
      show ((k', v) :: rest.toList).Perm ((k, w) :: (k', v) :: rest'.toList)
      exact (List.Perm.cons _ hperm).trans (List.Perm.swap (k, w) (k', v) _)

/-- Helper for C5: in a map with duplicate-free keys, looking any of its own
entries up yields that entry's value. -/
theorem vGet_self : ∀ (d : VEntries), (VEntries.keys d).Nodup →
    ∀ p ∈ d.toList, vGet d p.1 = Option.some p.2
  | .nil, _, p, hp => by simp [VEntries.toList] at hp
  | .cons k v rest, hnd, p, hp => by
    have hnd2 := List.nodup_cons.mp (show (k :: VEntries.keys rest).Nodup from hnd)
    rcases List.mem_cons.mp (show p ∈ (k, v) :: rest.toList from hp) with h | h
    · subst h; simp [vGet]
    · have hne : k ≠ p.1 := fun hc => hnd2.1 (by rw [hc]; exact List.mem_map_of_mem Prod.fst h)
      simpa [vGet, hne] using vGet_self rest hnd2.2 p h

/-- Helper for C5: the `merge_map_defaultable` loop, fed candidate entries
that each equal their default and whose keys are all present in the
accumulated map, only reorders the accumulated map. -/
theorem merge_vmap_defaultable_perm :
    ∀ (r dflt l : VEntries),
      (∀ p ∈ r.toList, vGet dflt p.1 = Option.some p.2) →
      (∀ p ∈ r.toList, p.1 ∈ VEntries.keys l) →
      (merge_vmap_defaultable dflt l r).toList.Perm l.toList
  | .nil, _, l, _, _ => List.Perm.refl _
  | .cons k rv rest, dflt, l, h1, h2 => by
    have hget : vGet dflt k = Option.some rv := h1 (k, rv) (by simp [VEntries.toList])
    have hmem : k ∈ VEntries.keys l := h2 (k, rv) (by simp [VEntries.toList])
    obtain ⟨w, l', hsw, hperm⟩ := vSwapRemove_mem l k hmem
    have hstep : merge_vmap_defaultable dflt l (.cons k rv rest) =
        merge_vmap_defaultable dflt (vJoin l' k w) rest := by
      by_cases hw : w = rv <;> simp [merge_vmap_defaultable, hget, hsw, hw]
    have hperm' : (vJoin l' k w).toList.Perm l.toList := by
      rw [vJoin_toList]
      exact (List.perm_append_singleton _ _).trans hperm.symm
    have ihl := merge_vmap_defaultable_perm rest dflt (vJoin l' k w)
      (fun p hp => h1 p (by simp [VEntries.toList, hp]))
      (fun p hp => ((hperm'.map Prod.fst).mem_iff).mpr
        (h2 p (by simp [VEntries.toList, hp])))
    rw [hstep]
    exact ihl.trans hperm'

/-- C5 (amended): merging a default-equal candidate into the accumulated map
is a no-op up to entry order — when the default map's keys are
duplicate-free and every one of them occurs in the accumulated map,
`merge3(d, a, d)` holds exactly `a`'s entries, merely permuted by
`IndexMap::swap_remove`'s index shuffling (so it equals `a` under the
order-insensitive `IndexMap` equality the source uses). -/
theorem C5_amended_merge3_default_noop (d a : VEntries)
    (hnd : (VEntries.keys d).Nodup)
    (hsub : ∀ k ∈ VEntries.keys d, k ∈ VEntries.keys a) :
    (mapEntries (merge_defaultable (.Map d) (.Map a) (.Map d))).toList.Perm a.toList := by
  have h1 : ∀ p ∈ d.toList, vGet d p.1 = Option.some p.2 := vGet_self d hnd
  have h2 : ∀ p ∈ d.toList, p.1 ∈ VEntries.keys a :=
    fun p hp => hsub p.1 (List.mem_map_of_mem Prod.fst hp)
  simpa [merge_defaultable, mapEntries] using merge_vmap_defaultable_perm d d a h1 h2

/-- Witness for C5 (amended) at a three-key instance (where the result is a
genuine reordering of the accumulated map). -/
theorem C5_amended_merge3_default_noop_witness :
    (VEntries.keys (.cons (.Str "1") (.I64 1) (.cons (.Str "2") (.I64 2)
        (.cons (.Str "3") (.I64 3) .nil)))).Nodup
    ∧ (∀ k ∈ VEntries.keys (.cons (.Str "1") (.I64 1) (.cons (.Str "2") (.I64 2)
          (.cons (.Str "3") (.I64 3) .nil))),
        k ∈ VEntries.keys (.cons (.Str "1") (.I64 4) (.cons (.Str "2") (.I64 5)
          (.cons (.Str "3") (.I64 6) .nil))))
    ∧ (mapEntries (merge_defaultable
        (.Map (.cons (.Str "1") (.I64 1) (.cons (.Str "2") (.I64 2)
          (.cons (.Str "3") (.I64 3) .nil))))
        (.Map (.cons (.Str "1") (.I64 4) (.cons (.Str "2") (.I64 5)
          (.cons (.Str "3") (.I64 6) .nil))))
        (.Map (.cons (.Str "1") (.I64 1) (.cons (.Str "2") (.I64 2)
          (.cons (.Str "3") (.I64 3) .nil)))))).toList.Perm
      (VEntries.cons (.Str "1") (.I64 4) (.cons (.Str "2") (.I64 5)
        (.cons (.Str "3") (.I64 6) .nil))).toList :=
  ⟨by decide, by decide,
    C5_amended_merge3_default_noop
      (.cons (.Str "1") (.I64 1) (.cons (.Str "2") (.I64 2)
        (.cons (.Str "3") (.I64 3) .nil)))
      (.cons (.Str "1") (.I64 4) (.cons (.Str "2") (.I64 5)
        (.cons (.Str "3") (.I64 6) .nil)))
      (by decide) (by decide)⟩
